import Mathlib

/-!
Verification development for the library-qr circulation-desk RPA driver.

The definitions below are a shallow embedding of the automation-relevant
code in `src/app/rpa_elibra.py` and `src/app/main.py`.  Browser/UI effects
are modelled by explicit environment records (what the page shows at each
poll step, which network responses were intercepted, ...), and each Python
function of interest becomes a total Lean function of its environment.
-/

namespace LibraryQR

/-! ### Python string primitives

Models of the Python string operations the source uses: `needle in hay`
(substring test), `.lower()` and `.strip()` (ASCII case folding / trim,
which is what the English selector keywords in the source need). -/

/-- Does `s` start with `p` (on character lists)? -/
def charsStartWith : List Char → List Char → Bool
  | [], _ => true
  | _ :: _, [] => false
  | a :: as, b :: bs => a == b && charsStartWith as bs

/-- Does the second list contain the first as a contiguous run? -/
def strContainsAux (p : List Char) : List Char → Bool
  | [] => p.isEmpty
  | b :: bs => charsStartWith p (b :: bs) || strContainsAux p bs

/-- Python `needle in hay` on strings. -/
def pyInStr (needle hay : String) : Bool :=
  strContainsAux needle.data hay.data

/-- Python `s.lower()` (character-wise ASCII case folding; the keywords
the source lowers and matches are ASCII). -/
def pyLower (s : String) : String :=
  String.mk (s.data.map Char.toLower)

/-- Is the character removed by Python `s.strip()`? -/
def isPySpace (c : Char) : Bool :=
  c == ' ' || c == '\t' || c == '\n' || c == '\r'

/-- Drop leading whitespace from a character list. -/
def dropLeadingSpace : List Char → List Char
  | [] => []
  | c :: cs => if isPySpace c then dropLeadingSpace cs else c :: cs

/-- Python `s.strip()`: whitespace removed from both ends. -/
def pyStrip (s : String) : String :=
  String.mk ((dropLeadingSpace ((dropLeadingSpace s.data).reverse)).reverse)

/-! ### Python values and dicts

The structured JSON payloads the driver intercepts are modelled as
association lists of a small Python value type. -/

/-- A Python scalar value as found in the intercepted JSON payloads. -/
inductive PyVal
  | vint (n : Int)
  | vstr (s : String)
  | vbool (b : Bool)
deriving DecidableEq, Repr

/-- A Python dict with scalar values (the shape of intercepted responses). -/
abbrev PyDict := List (String × PyVal)

/-- Python `d.get(k)`: the value stored under `k`, if present. -/
def dictGet (d : PyDict) (k : String) : Option PyVal :=
  (d.find? (fun p => p.1 == k)).map Prod.snd

/-- Python `repr` of a scalar, as it appears inside `str(dict)`. -/
def pyValRepr : PyVal → String
  | .vint n => toString n
  | .vstr s => "\x27" ++ s ++ "\x27"
  | .vbool true => "True"
  | .vbool false => "False"

/-- Python `str(d)` for a dict, e.g. `\x7b\x27status\x27: 5\x7d`. -/
def pyDictRepr (d : PyDict) : String :=
  "\x7b" ++ String.intercalate ", "
    (d.map (fun p => "\x27" ++ p.1 ++ "\x27: " ++ pyValRepr p.2)) ++ "\x7d"

/-- Python `str(v)` of a scalar (used in f-strings). -/
def pyStrVal : PyVal → String
  | .vint n => toString n
  | .vstr s => s
  | .vbool true => "True"
  | .vbool false => "False"

/-- Python `str(v)` lifted to an optional value (`None` prints as "None"). -/
def pyStrOptVal : Option PyVal → String
  | some v => pyStrVal v
  | none => "None"

/-- Python truthiness test `status == 0` (note `False == 0` holds in Python). -/
def pyEqZero : Option PyVal → Bool
  | some (.vint 0) => true
  | some (.vbool false) => true
  | _ => false

/-- Is the optional status value the string "0" (Python `status == "0"`)? -/
def isStrZero : Option PyVal → Bool
  | some (.vstr s) => s == "0"
  | _ => false

/-- Is the optional value Python `True` (`d.get("success") is True`)? -/
def isPyTrue : Option PyVal → Bool
  | some (.vbool true) => true
  | _ => false

/-- Value of `d.get("message", deflt)`.  The remote API sends string
messages; a non-string value is carried as its repr (such a payload never
occurs in the scenarios the claims quantify over). -/
def getMessage (d : PyDict) (deflt : String) : String :=
  match dictGet d "message" with
  | some (.vstr s) => s
  | some v => pyValRepr v
  | none => deflt

/-! ### C6 — loan-days clamping in `src/app/main.py`

`MAX_DAYS = int(os.getenv("MAX_DAYS", "14"))` (main.py:28); the two form
endpoints clamp the caller-supplied value, the diagnostic endpoint
`/diag/issue` does not. -/

/-- Default of the `MAX_DAYS` configuration constant (main.py:28). -/
def MAX_DAYS : Int := 14

/-- Modelled from main.py:646-649 and main.py:696-699: the two successive
`if` statements that clamp `loan_days` before calling `issue_item`. -/
def enforceLoanLimits (maxDays loan_days : Int) : Int :=
  let ld1 := if loan_days > maxDays then maxDays else loan_days
  if ld1 < 1 then 1 else ld1

/-- Loan days passed to `issue_item` by `rpa_issue` (main.py:645-651). -/
def rpa_issue_loan_days (maxDays loan_days : Int) : Int :=
  enforceLoanLimits maxDays loan_days

/-- Loan days passed to `issue_item` by `submit` (main.py:690-699, 748):
the form value is parsed (`none` models a parse failure, which falls back
to `MAX_DAYS`), then clamped. -/
def submit_loan_days (maxDays : Int) (parsed : Option Int) : Int :=
  enforceLoanLimits maxDays (parsed.getD maxDays)

/-- Loan days passed to `issue_item` by `diag_issue` (main.py:818-821):
the query parameter is forwarded unchanged, with no clamping. -/
def diag_issue_loan_days (loan_days : Int) : Int :=
  loan_days

/-! ### C10 — `get_rpa` singleton (rpa_elibra.py:1917-1926)

The module-level `_rpa_instance` is modelled as an `Option` of an instance
identifier; `get_rpa` returns the stored instance or stores a fresh one. -/

/-- Modelled from rpa_elibra.py:1921-1926: `get_rpa` over the module state
`_rpa_instance`.  Returns (returned instance, new module state); `fresh`
is the identity of the `ElibraRPA()` that would be constructed. -/
def get_rpa (inst : Option Nat) (fresh : Nat) : Nat × Option Nat :=
  match inst with
  | some i => (i, some i)
  | none => (fresh, some fresh)

/-! ### Reader resolution inside issue/return (C2, C3)

The dropdown-matching loop of `issue_item` (rpa_elibra.py:962-1032) and
`return_item` (rpa_elibra.py:1529-1580): up to 10 attempts, ~0.5s apart,
looking for an option whose `title + " " + inner_text` contains the
normalized query.  The UI is modelled by the list of options the loop
inspects at each attempt. -/

/-- A rendered dropdown option: its `title` attribute and inner text. -/
structure UIOption where
  title : String
  text : String
deriving DecidableEq, Repr

/-- The combined text the code matches against:
`f"\x7btitle\x7d \x7btext\x7d".lower()` (rpa_elibra.py:1001, 1551). -/
def optionCombined (o : UIOption) : String :=
  pyLower (o.title ++ " " ++ o.text)

/-- `(search_query or "").strip().lower()` (rpa_elibra.py:968, 1532). -/
def normalizeQuery (q : String) : String :=
  pyLower (pyStrip q)

/-- The per-option test (rpa_elibra.py:1005, 1554): the normalized query is
non-empty and occurs in the option's combined text. -/
def optionMatches (nq : String) (o : UIOption) : Bool :=
  nq != "" && pyInStr nq (optionCombined o)

/-- One attempt of the loop: the first matching option among those
currently rendered, if any (the inner `for opt in options` with `break`). -/
def findMatchingOption (nq : String) (opts : List UIOption) : Option UIOption :=
  opts.find? (optionMatches nq)

/-- The retry loop body: at attempt index `t`, with `fuel` attempts left,
return the attempt index and option first matched, or `none` after the
last attempt (rpa_elibra.py:970-1016 and 1535-1565, `for attempt in
range(10)` with a 0.5s sleep between attempts). -/
def selectLoop (nq : String) (optsAt : Nat → List UIOption) :
    Nat → Nat → Option (Nat × UIOption)
  | _, 0 => none
  | t, fuel + 1 =>
    match findMatchingOption nq (optsAt t) with
    | some o => some (t, o)
    | none => selectLoop nq optsAt (t + 1) fuel

/-- The whole `selectByMatch` poll: normalize the query, then 10 bounded
retries over the options the page shows at each attempt. -/
def selectByMatch (q : String) (optsAt : Nat → List UIOption) :
    Option (Nat × UIOption) :=
  selectLoop (normalizeQuery q) optsAt 0 10

/-- Python truthiness of the optional reader query (`if reader_query:`
treats `None` and `""` alike). -/
def queryTruthy : Option String → Bool
  | none => false
  | some s => s != ""

/-- The string used when the query is truthy (`reader_query or ""`). -/
def queryString : Option String → String
  | none => ""
  | some s => s

/-- Outcome of the reader-resolution phase of `issue_item`
(rpa_elibra.py:851-1110), before barcode entry. -/
inductive IssuePhaseResult
  | missingQueryError
      -- early return rpa_elibra.py:892-897: no reader_query and no reader
      -- verified as selected
  | readerNotFoundError
      -- early return rpa_elibra.py:1024-1032: no dropdown option matched
  | notSelectedError
      -- early return rpa_elibra.py:1105-1110: final verification failed
  | proceed (clicked : Option UIOption)
      -- falls through to Step 3 (barcode entry, rpa_elibra.py:1114);
      -- `clicked` is the dropdown option that was clicked, if any
deriving DecidableEq, Repr

/-- UI environment of the issue reader-resolution phase. -/
structure IssueReaderEnv where
  /-- result of `_verify_reader_selected()` at rpa_elibra.py:867 when no
  query is given -/
  alreadySelected : Bool
  /-- dropdown options inspected at each poll attempt -/
  optsAt : Nat → List UIOption
  /-- an exception in the search-input interaction before the match loop;
  it is swallowed at rpa_elibra.py:1097-1099 and no option is clicked.
  (An exception after the click is handled the same way; the clicked
  option is then a matched one, so collapsing both onto this flag only
  under-reports clicks of matched options.) -/
  searchRaises : Bool
  /-- result of the gating `_verify_reader_selected()` at
  rpa_elibra.py:1103 -/
  verifyFinal : Bool

/-- Modelled from rpa_elibra.py:851-1110: Step 2 of `issue_item`.
With a truthy `reader_query` the dropdown is always re-polled; without
one, a reader already verified as selected is trusted (the
backward-compatibility branch at rpa_elibra.py:866-873), and otherwise
the missing-query error is returned (rpa_elibra.py:885-897). -/
def issueReaderPhase (reader_query : Option String) (env : IssueReaderEnv) :
    IssuePhaseResult :=
  if queryTruthy reader_query then
    if env.searchRaises then
      if env.verifyFinal then .proceed none else .notSelectedError
    else
      match selectByMatch (queryString reader_query) env.optsAt with
      | none => .readerNotFoundError
      | some (_, o) =>
        if env.verifyFinal then .proceed (some o) else .notSelectedError
  else
    if env.alreadySelected then
      if env.verifyFinal then .proceed none else .notSelectedError
    else .missingQueryError

/-- Outcome of the reader-resolution phase of `return_item`
(rpa_elibra.py:1491-1620), before barcode entry. -/
inductive ReturnPhaseResult
  | readerNotFoundError
      -- early return rpa_elibra.py:1568-1580
  | clickError
      -- early return rpa_elibra.py:1610-1616: clicking the matched option
      -- raised
  | proceed (clicked : Option UIOption)
      -- falls through to Step 3 (barcode entry, rpa_elibra.py:1622)
deriving DecidableEq, Repr

/-- UI environment of the return reader-resolution phase. -/
structure ReturnReaderEnv where
  /-- did the readiness wait (rpa_elibra.py:1515-1527, 20 polls of 0.25s)
  observe a visible dropdown with at least one option? -/
  dropdownReady : Bool
  /-- dropdown options inspected at each attempt of the match loop -/
  optsAt : Nat → List UIOption
  /-- did the click of the matched option raise
  (rpa_elibra.py:1610-1616)? -/
  clickRaises : Bool
  /-- an exception in the search-input interaction before the match loop;
  swallowed at rpa_elibra.py:1617-1618, then the code continues to
  barcode entry -/
  searchRaises : Bool

/-- Modelled from rpa_elibra.py:1491-1620: Step 2 of `return_item`.
Without a truthy query, selection is skipped entirely
(rpa_elibra.py:1619-1620).  With one, the match loop only runs if the
dropdown became ready; if it never did, selection is skipped with no
failure (`if dropdown_ready:` at rpa_elibra.py:1530 has no else). -/
def returnReaderPhase (reader_query : Option String) (env : ReturnReaderEnv) :
    ReturnPhaseResult :=
  if queryTruthy reader_query then
    if env.searchRaises then .proceed none
    else if env.dropdownReady then
      match selectByMatch (queryString reader_query) env.optsAt with
      | none => .readerNotFoundError
      | some (_, o) =>
        if env.clickRaises then .clickError else .proceed (some o)
    else .proceed none
  else .proceed none

/-! ### Outcome classification (C4, C5)

`issue_item` (rpa_elibra.py:1311-1367) and `return_item`
(rpa_elibra.py:1768-1857) merge the intercepted confirmation-endpoint
response with DOM indicators.  DOM signals are modelled by the text of the
first visible error indicator and the first visible success indicator (if
any): the source scans fixed indicator lists and uses the first visible
element (rpa_elibra.py:1332-1363, 1803-1844). -/

/-- The JSON payload captured from the confirmation endpoint: a dict, or a
non-dict value carrying only its Python truthiness. -/
inductive JsonResp
  | jdict (d : PyDict)
  | jother (truthy : Bool)
deriving DecidableEq, Repr

/-- Python truthiness of the captured payload (`if issue_response_data:`;
an empty dict is falsy). -/
def respTruthy : JsonResp → Bool
  | .jdict d => !d.isEmpty
  | .jother t => t

/-- The DOM signals the classifier consults: text of the first visible
error indicator and of the first visible success indicator, if any. -/
structure DomSignals where
  errorText : Option String
  successText : Option String
deriving DecidableEq, Repr

/-- Modelled from rpa_elibra.py:1329-1367: the UI-based detection branch of
`issue_item`, entered with `ok = False`, `message = "Issue action
completed"`.  The success-indicator scan and the final assume-success
check (rpa_elibra.py:1349-1367) sit under `if ok:`, and `ok` is always
`False` at that point, so they can never run. -/
def issueDomBranch (dom : DomSignals) : Bool × String :=
  let st0 : Bool × String := (false, "Issue action completed")
  let st1 :=
    match dom.errorText with
    | some t => (false, t)
    | none => st0
  if st1.1 then
    let st2 :=
      match dom.successText with
      | some t => (true, t)
      | none => st1
    if st2.2 = "Issue action completed" then (true, st2.2) else st2
  else st1

/-- Modelled from rpa_elibra.py:1311-1367: outcome classification of
`issue_item`.  A truthy intercepted dict is decided by `status == 0`
alone; a truthy non-dict yields success; otherwise the DOM branch runs. -/
def classify_issue (resp : Option JsonResp) (dom : DomSignals) :
    Bool × String :=
  match resp with
  | some r =>
    if respTruthy r then
      match r with
      | .jdict d =>
        if pyEqZero (dictGet d "status") then
          (true, getMessage d "Issue successful")
        else (false, getMessage d "Issue failed")
      | .jother _ => (true, "Issue completed (unexpected response format)")
    else issueDomBranch dom
  | none => issueDomBranch dom

/-- Modelled from rpa_elibra.py:1776-1798: the response-based part of the
return classifier, starting from `ok = False`,
`message = "Return action completed"`. -/
def returnRespPhase (resp : Option JsonResp) : Bool × String :=
  match resp with
  | some (.jdict d) =>
    if d.isEmpty then (false, "Return action completed")
    else
      let status := dictGet d "status"
      if pyEqZero status || isStrZero status ||
          isPyTrue (dictGet d "success") then
        (true, getMessage d "Return successful")
      else if pyInStr "error" (pyLower (pyDictRepr d)) ||
          pyInStr "fail" (pyLower (pyDictRepr d)) then
        (false, getMessage d "Return failed")
      else if status.isSome && !pyEqZero status then
        (false, getMessage d
          ("Return failed (status: " ++ pyStrOptVal status ++ ")"))
      else (true, getMessage d "Return completed")
  | some (.jother t) =>
    if t then (true, "Return completed") else (false, "Return action completed")
  | none => (false, "Return action completed")

/-- Modelled from rpa_elibra.py:1801-1857: the UI fallback of the return
classifier, run when `not ok or return_response_data is None`.  A visible
error indicator forces failure; otherwise a visible success indicator, a
message containing "completed", or (with no response at all) the final
assume-success block flips the outcome to success. -/
def returnDomFallback (dom : DomSignals) (respIsNone : Bool)
    (ok0 : Bool) (msg0 : String) : Bool × String :=
  match dom.errorText with
  | some t => (false, t)
  | none =>
    let st1 :=
      match dom.successText with
      | some t => (true, t)
      | none => (ok0, msg0)
    let ok2 :=
      if pyInStr "Return action completed" st1.2 ||
          pyInStr "completed" (pyLower st1.2) then true
      else st1.1
    if respIsNone then
      if pyInStr "Return action completed" st1.2 then (true, st1.2)
      else (true, "Return action completed")
    else (ok2, st1.2)

/-- Modelled from rpa_elibra.py:1768-1857: outcome classification of
`return_item`. -/
def classify_return (resp : Option JsonResp) (dom : DomSignals) :
    Bool × String :=
  let st := returnRespPhase resp
  if !st.1 || resp.isNone then returnDomFallback dom resp.isNone st.1 st.2
  else st

/-! ### Return security interlock (C1)

The await-outcome loop of `return_item` (rpa_elibra.py:1682-1764) polls 10
times, 0.5s apart; on each iteration it first looks for the Ant Design
confirm modal warning that the book is given to another reader and, if
found, clicks the modal's cancel control (or presses Escape) and returns a
`security_warning` failure; only then does it check whether the
confirmation-endpoint response has arrived. -/

/-- A button of the confirm modal: its text and whether it carries the
`ant-btn-default` class (in Ant Design confirm modals the cancel control
is the default-class button; the confirm control is the primary one). -/
structure ModalButton where
  text : String
  isDefaultBtn : Bool
deriving DecidableEq, Repr

/-- The confirm modal: its inner text and its `.ant-modal-confirm-btns`
buttons in order. -/
structure ConfirmModal where
  text : String
  buttons : List ModalButton
deriving DecidableEq, Repr

/-- The text test at rpa_elibra.py:1692: the modal warns that the book is
given to another reader. -/
def modalMatches (m : ConfirmModal) : Bool :=
  pyInStr "given to another reader" (pyLower m.text) ||
    (pyInStr "warning" (pyLower m.text) && pyInStr "book" (pyLower m.text))

/-- How the executor dismisses the modal. -/
inductive DismissAction
  | clickButton (b : ModalButton)
  | pressEscape
deriving DecidableEq, Repr

/-- The text test applied before clicking in methods 2 and 3
(rpa_elibra.py:1715, 1730). -/
def hasCancelText (s : String) : Bool :=
  pyInStr "Отмена" s || pyInStr "Cancel" s

/-- Method 3 (rpa_elibra.py:1723-1736): with at least two buttons, click
the first if it is cancel-texted; otherwise fall back to Escape
(rpa_elibra.py:1750). -/
def resolveCancelM3 (m : ConfirmModal) : DismissAction :=
  match m.buttons with
  | b0 :: _ :: _ =>
    if hasCancelText b0.text then .clickButton b0 else .pressEscape
  | _ => .pressEscape

/-- Method 2 (rpa_elibra.py:1709-1721): the first `ant-btn-default`
button, clicked only if cancel-texted. -/
def resolveCancelM2 (m : ConfirmModal) : DismissAction :=
  match m.buttons.find? (fun b => b.isDefaultBtn) with
  | some b => if hasCancelText b.text then .clickButton b else resolveCancelM3 m
  | none => resolveCancelM3 m

/-- Modelled from rpa_elibra.py:1695-1758: the cancel-resolution chain.
Method 1 clicks the first button whose text contains "Отмена"; the later
methods and the Escape fallback follow.  Every path either presses Escape
or clicks a cancel-texted button — no path clicks the confirm control. -/
def resolveCancel (m : ConfirmModal) : DismissAction :=
  match m.buttons.find? (fun b => pyInStr "Отмена" b.text) with
  | some b => .clickButton b
  | none => resolveCancelM2 m

/-- Does the dismissal avoid the confirm action?  (Escape, or a click on a
button whose text contains "Отмена" or "Cancel" — i.e. the dialog's
cancel control, never its confirm control.) -/
def dismissNotConfirm : DismissAction → Bool
  | .pressEscape => true
  | .clickButton b => hasCancelText b.text

/-- Environment of the await-outcome loop: what the page shows at each of
the (up to) 10 poll iterations, and when the intercepted response (if
ever) became available. -/
structure ReturnAwaitEnv where
  /-- the `.ant-modal-confirm` modal visible at iteration `t`, if any -/
  modalAt : Nat → Option ConfirmModal
  /-- first iteration index at which `return_response_data` is non-None -/
  respAt : Option Nat

/-- Has the intercepted response arrived by iteration `t`? -/
def respArrivedBy (env : ReturnAwaitEnv) (t : Nat) : Bool :=
  match env.respAt with
  | some r => r ≤ t
  | none => false

/-- Is a matching security modal visible at iteration `t`? -/
def matchingModalAt (env : ReturnAwaitEnv) (t : Nat) : Bool :=
  match env.modalAt t with
  | some m => modalMatches m
  | none => false

/-- Result of the await-outcome loop. -/
inductive ReturnAwait
  | security (dismiss : DismissAction)
      -- early return rpa_elibra.py:1742-1758 with the security failure
  | classifyOutcome
      -- loop left (response arrived or 10 iterations elapsed); the
      -- classifier at rpa_elibra.py:1768-1857 runs next
deriving DecidableEq, Repr

/-- Modelled from rpa_elibra.py:1684-1764: one iteration checks the modal
first (returning the security rejection if it matches), then breaks if
the response has arrived, else continues with the next iteration. -/
def returnAwaitGo (env : ReturnAwaitEnv) : Nat → Nat → ReturnAwait
  | _, 0 => .classifyOutcome
  | t, fuel + 1 =>
    match env.modalAt t with
    | some m =>
      if modalMatches m then .security (resolveCancel m)
      else if respArrivedBy env t then .classifyOutcome
      else returnAwaitGo env (t + 1) fuel
    | none =>
      if respArrivedBy env t then .classifyOutcome
      else returnAwaitGo env (t + 1) fuel

/-- The await-outcome loop: 10 iterations starting at index 0. -/
def returnAwait (env : ReturnAwaitEnv) : ReturnAwait :=
  returnAwaitGo env 0 10

/-- The structured result of `return_item`.  The source's
`security_warning` key is the spec's `securityRejection`; a result dict
without the key is modelled by `false`. -/
structure ReturnResult where
  ok : Bool
  message : String
  security_warning : Bool
deriving DecidableEq, Repr

/-- The security-rejection result (rpa_elibra.py:1742-1747, 1753-1758). -/
def securityResult : ReturnResult :=
  { ok := false
    message := "Книга выдана другому читателю. Возврат отклонен по соображениям безопасности."
    security_warning := true }

/-- Modelled from rpa_elibra.py:1682-1899: the outcome of `return_item`
after submission — the await loop followed, when no security modal fired,
by the classifier. -/
def return_decision (env : ReturnAwaitEnv) (resp : Option JsonResp)
    (dom : DomSignals) : ReturnResult :=
  match returnAwait env with
  | .security _ => securityResult
  | .classifyOutcome =>
    let st := classify_return resp dom
    { ok := st.1, message := st.2, security_warning := false }

/-! ### Session manager start (C7)

`ElibraRPA.initialize` (rpa_elibra.py:35-111): the early return when
already initialized, the launch sequence, and the exception handler that
closes the context, stops the engine, clears the page and re-raises.
Resource handles are modelled as opaque numeric identifiers. -/

/-- The session fields of `ElibraRPA` touched by the launch
(rpa_elibra.py:27-33). -/
structure SessionState where
  playwright : Option Nat
  browserCtx : Option Nat
  page : Option Nat
  isInit : Bool
deriving DecidableEq, Repr

/-- The environment of one launch attempt: each step either yields a
handle or raises (`none`). -/
structure LaunchEnv where
  /-- `async_playwright().start()` (rpa_elibra.py:77) -/
  startResult : Option Nat
  /-- `launch_persistent_context(...)` (rpa_elibra.py:79-85) -/
  launchResult : Option Nat
  /-- `self.context.pages` of the launched context (rpa_elibra.py:88) -/
  contextPages : List Nat
  /-- `self.context.new_page()` (rpa_elibra.py:91) -/
  newPageResult : Option Nat

/-- State left by the exception handler (rpa_elibra.py:95-111): context
closed and cleared, engine stopped and cleared, page cleared; the
`_initialized` flag was never set, so it stays `false`. -/
def launchFailState : SessionState :=
  { playwright := none, browserCtx := none, page := none, isInit := false }

/-- Modelled from rpa_elibra.py:35-111: `initialize`.  Returns the new
session state and the surfaced error, if the launch raised.  When already
initialized it returns at once (rpa_elibra.py:41-42, re-checked under the
lock at 44-45); this sequential model collapses the double check. -/
def initSession (st : SessionState) (env : LaunchEnv) :
    SessionState × Option String :=
  if st.isInit then (st, none)
  else
    match env.startResult with
    | none => (launchFailState, some "playwright start failed")
    | some pw =>
      match env.launchResult with
      | none => (launchFailState, some "launch_persistent_context failed")
      | some ctx =>
        match env.contextPages with
        | p :: _ =>
          ({ playwright := some pw, browserCtx := some ctx,
             page := some p, isInit := true }, none)
        | [] =>
          match env.newPageResult with
          | none => (launchFailState, some "new_page failed")
          | some p =>
            ({ playwright := some pw, browserCtx := some ctx,
               page := some p, isInit := true }, none)

/-! ### Operation boundaries (C8)

`search_readers` (rpa_elibra.py:436-714), `issue_item`
(rpa_elibra.py:806-1428) and `return_item` (rpa_elibra.py:1451-1914) wrap
their whole bodies in try/except and turn every raised exception into a
structured `ok: False` result.  The body is modelled by its outcome: a
normal result or a raised exception. -/

/-- An exception escaping the operation body: a Playwright timeout or any
other `Exception`. -/
inductive PyExc
  | timeout (s : String)
  | exc (s : String)
deriving DecidableEq, Repr

/-- Python `str(e)` of the exception. -/
def excText : PyExc → String
  | .timeout s => s
  | .exc s => s

/-- The result dict of `search_readers`. -/
structure SearchResult where
  ok : Bool
  results : List PyDict
  count : Nat
  error : Option String
deriving DecidableEq, Repr

/-- Modelled from rpa_elibra.py:436-714: the try/except boundary of
`search_readers`; the handler (707-714) builds the empty-failure dict. -/
def search_readers_boundary (body : Except PyExc SearchResult) :
    SearchResult :=
  match body with
  | .ok r => r
  | .error e => { ok := false, results := [], count := 0,
                  error := some (excText e) }

/-- The result dict of `issue_item` (the fields present on every path). -/
structure IssueItemResult where
  ok : Bool
  message : String
  barcode : String
  reader_id : Int
deriving DecidableEq, Repr

/-- Modelled from rpa_elibra.py:806-1428: the try/except boundary of
`issue_item`; the handlers (1413-1428) prefix the message with
"Timeout: " or "Error: ". -/
def issue_item_boundary (barcode : String) (reader_id : Int)
    (body : Except PyExc IssueItemResult) : IssueItemResult :=
  match body with
  | .ok r => r
  | .error (.timeout s) =>
    { ok := false, message := "Timeout: " ++ s,
      barcode := barcode, reader_id := reader_id }
  | .error (.exc s) =>
    { ok := false, message := "Error: " ++ s,
      barcode := barcode, reader_id := reader_id }

/-- The result dict of `return_item` (the fields present on every path). -/
structure ReturnItemResult where
  ok : Bool
  message : String
  barcode : String
deriving DecidableEq, Repr

/-- Modelled from rpa_elibra.py:1451-1914: the try/except boundary of
`return_item`; the handlers (1901-1914). -/
def return_item_boundary (barcode : String)
    (body : Except PyExc ReturnItemResult) : ReturnItemResult :=
  match body with
  | .ok r => r
  | .error (.timeout s) =>
    { ok := false, message := "Timeout: " ++ s, barcode := barcode }
  | .error (.exc s) =>
    { ok := false, message := "Error: " ++ s, barcode := barcode }

/-! ### Lock serialization (C9)

Every UI-driving operation of `ElibraRPA` has the same shape: some
lock-free preliminary steps (the pre-lock `_ensure_initialized` /
`if self._initialized` checks), then `async with self._lock:` around all
page interactions, then the release.  `initialize` (43), `close` (115),
`health` (362), `manual_login` (408), `search_readers` (439),
`issue_item` (809) and `return_item` (1454) all follow it, and the login
flow runs inside the caller's locked region.  The asyncio cooperative
scheduler is modelled as an arbitrary interleaving of single steps; an
operation scheduled at a blocked `acquire` simply does not advance. -/

/-- The kinds of atomic steps an operation performs. -/
inductive OpStep
  | localStep
  | acquire
  | uiDrive
  | release
deriving DecidableEq, Repr

/-- The shape of one operation: `pre` lock-free steps, one acquire, `ui`
page interactions, one release. -/
structure OpSpec where
  pre : Nat
  ui : Nat
deriving DecidableEq, Repr

/-- The next step of an operation that has executed `pc` steps. -/
def nextOpStep (sp : OpSpec) (pc : Nat) : Option OpStep :=
  if pc < sp.pre then some .localStep
  else if pc = sp.pre then some .acquire
  else if pc < sp.pre + 1 + sp.ui then some .uiDrive
  else if pc = sp.pre + 1 + sp.ui then some .release
  else none

/-- Global state: each operation's progress and the `asyncio.Lock`
owner. -/
structure LockSys (k : Nat) where
  pcs : Fin k → Nat
  lockOwner : Option (Fin k)

/-- Operation `i` has acquired the lock and not yet released it. -/
def inCritical (sp : OpSpec) (pc : Nat) : Prop :=
  sp.pre < pc ∧ pc < sp.pre + sp.ui + 2

instance (sp : OpSpec) (pc : Nat) : Decidable (inCritical sp pc) :=
  inferInstanceAs (Decidable (And _ _))

/-- One scheduler step: operation `i` runs its next step if enabled; a
blocked `acquire` leaves the state unchanged. -/
def stepSys {k : Nat} (specs : Fin k → OpSpec) (s : LockSys k) (i : Fin k) :
    LockSys k :=
  match nextOpStep (specs i) (s.pcs i) with
  | none => s
  | some .localStep =>
    { s with pcs := Function.update s.pcs i (s.pcs i + 1) }
  | some .acquire =>
    match s.lockOwner with
    | none => { pcs := Function.update s.pcs i (s.pcs i + 1),
                lockOwner := some i }
    | some _ => s
  | some .uiDrive =>
    { s with pcs := Function.update s.pcs i (s.pcs i + 1) }
  | some .release =>
    { pcs := Function.update s.pcs i (s.pcs i + 1), lockOwner := none }

/-- The initial state: no operation has run, the lock is free. -/
def initLockSys (k : Nat) : LockSys k :=
  { pcs := fun _ => 0, lockOwner := none }

/-- Run a schedule (an arbitrary interleaving of operation indices). -/
def runSched {k : Nat} (specs : Fin k → OpSpec) (sched : List (Fin k)) :
    LockSys k :=
  sched.foldl (stepSys specs) (initLockSys k)

/-- The key invariant: an operation is inside its locked region exactly
when it owns the lock. -/
def lockInv {k : Nat} (specs : Fin k → OpSpec) (s : LockSys k) : Prop :=
  ∀ i, inCritical (specs i) (s.pcs i) ↔ s.lockOwner = some i

/-! ### Concrete instances used by witnesses -/

/-- A concrete security modal: the eLibra warning dialog with its Cancel
and confirm buttons. -/
def securityModalW : ConfirmModal :=
  { text := "Warning. The book is given to another reader. Are you sure you want to return the book?"
    buttons := [{ text := "Отмена", isDefaultBtn := true },
                { text := "Yes", isDefaultBtn := false }] }

/-- A page trace showing the security modal at the first poll iteration
and intercepting no response. -/
def securityEnvW : ReturnAwaitEnv :=
  { modalAt := fun t => if t = 0 then some securityModalW else none
    respAt := none }

/-- A dropdown trace showing one matching option at every attempt. -/
def optsMatchW : Nat → List UIOption :=
  fun _ => [{ title := "AB", text := "x" }]

/-- A launch environment whose first step raises. -/
def launchFailEnvW : LaunchEnv :=
  { startResult := none, launchResult := none, contextPages := [],
    newPageResult := none }

/-- Two identical operations, each with no pre-lock steps and two UI
steps. -/
def specsW : Fin 2 → OpSpec := fun _ => { pre := 0, ui := 2 }

/-! ## Theorems -/

/-- C10: `get_rpa` is idempotent and returns a process-wide singleton —
after any first call, every later call returns the very same instance and
leaves the module state unchanged, so all HTTP endpoints (via
`rpa = get_rpa()` at main.py:152) share one `ElibraRPA` instance. -/
theorem get_rpa_singleton (s0 : Option Nat) (f1 f2 : Nat) :
    (get_rpa (get_rpa s0 f1).2 f2).1 = (get_rpa s0 f1).1 ∧
    (get_rpa (get_rpa s0 f1).2 f2).2 = (get_rpa s0 f1).2 := by
  cases s0 <;> simp [get_rpa]

/-- C6 counterexample: the HTTP endpoint `/diag/issue` (main.py:818-821)
forwards its caller-supplied `loan_days` to `issue_item` with no
clamping: the value 100 reaches the core unchanged and exceeds
`MAX_DAYS = 14`, refuting the claim that every call path from the HTTP
front end clamps the value into [1, MAX_DAYS]. -/
theorem diag_issue_passes_unclamped_loan_days :
    diag_issue_loan_days 100 = 100 ∧ ¬(diag_issue_loan_days 100 ≤ MAX_DAYS) := by
  refine ⟨rfl, ?_⟩
  decide

/-- Bounds of the shared clamping code (main.py:646-649, 696-699). -/
theorem enforceLoanLimits_bounds (maxDays ld : Int) (hmax : 1 ≤ maxDays) :
    1 ≤ enforceLoanLimits maxDays ld ∧ enforceLoanLimits maxDays ld ≤ maxDays := by
  unfold enforceLoanLimits
  dsimp only
  split_ifs <;> omega

/-- C6 amended: the endpoints `rpa_issue` (main.py:645-651) and `submit`
(main.py:690-699, 748) clamp the caller-supplied loan-days value into
[1, MAX_DAYS] before invoking `issue_item`, but the diagnostic endpoint
`diag_issue` (main.py:818-821) passes the value through unclamped. -/
theorem loan_days_clamped_except_diag (maxDays ld : Int) (p : Option Int)
    (hmax : 1 ≤ maxDays) :
    (1 ≤ rpa_issue_loan_days maxDays ld ∧
      rpa_issue_loan_days maxDays ld ≤ maxDays) ∧
    (1 ≤ submit_loan_days maxDays p ∧
      submit_loan_days maxDays p ≤ maxDays) ∧
    diag_issue_loan_days ld = ld := by
  exact ⟨enforceLoanLimits_bounds maxDays ld hmax,
    enforceLoanLimits_bounds maxDays (p.getD maxDays) hmax, rfl⟩

/-- C6 amended witness: the clamping endpoints at MAX_DAYS = 14 and a
caller-supplied 100. -/
theorem loan_days_clamped_except_diag_witness :
    (1 ≤ rpa_issue_loan_days 14 100 ∧ rpa_issue_loan_days 14 100 ≤ 14) ∧
    (1 ≤ submit_loan_days 14 (some 100) ∧ submit_loan_days 14 (some 100) ≤ 14) ∧
    diag_issue_loan_days 100 = 100 :=
  loan_days_clamped_except_diag 14 100 (some 100) (by decide)

/-- C7: `initialize` is idempotent — with the session already initialized
it returns at once, changing nothing and launching nothing — and atomic
on failure: whenever the launch raises, the handler (rpa_elibra.py:95-111)
leaves every resource field cleared and the `_initialized` flag false,
and the error is surfaced, so a later call retries the launch path. -/
theorem initialize_idempotent_and_atomic (st : SessionState) (env : LaunchEnv) :
    (st.isInit = true → initSession st env = (st, none)) ∧
    (∀ e, (initSession st env).2 = some e →
      (initSession st env).1 = launchFailState ∧
      (initSession st env).1.isInit = false) := by
  constructor
  · intro h
    unfold initSession
    rw [if_pos h]
  · intro e h
    unfold initSession at h ⊢
    by_cases hi : st.isInit
    · rw [if_pos hi] at h
      simp at h
    · rw [if_neg hi] at h ⊢
      cases hs : env.startResult with
      | none => exact ⟨rfl, rfl⟩
      | some pw =>
        cases hl : env.launchResult with
        | none => exact ⟨rfl, rfl⟩
        | some ctx =>
          cases hp : env.contextPages with
          | cons p ps => simp [hs, hl, hp] at h
          | nil =>
            cases hn : env.newPageResult with
            | none => exact ⟨rfl, rfl⟩
            | some p => simp [hs, hl, hp, hn] at h

/-- C7 witness: idempotency on an initialized state; rollback when the
engine fails to start. -/
theorem initialize_idempotent_and_atomic_witness :
    initSession ⟨some 1, some 2, some 3, true⟩ launchFailEnvW =
      (⟨some 1, some 2, some 3, true⟩, none) ∧
    (initSession ⟨none, none, none, false⟩ launchFailEnvW).1 = launchFailState :=
  ⟨(initialize_idempotent_and_atomic ⟨some 1, some 2, some 3, true⟩
      launchFailEnvW).1 rfl,
   ((initialize_idempotent_and_atomic ⟨none, none, none, false⟩
      launchFailEnvW).2 "playwright start failed" rfl).1⟩

/-- C8: every exception raised inside the bodies of `search_readers`,
`issue_item` and `return_item` is caught at the operation boundary
(rpa_elibra.py:707-714, 1413-1428, 1901-1914) and converted into a
structured `ok: False` result with a human-readable message; the boundary
functions are total, so no exception reaches the caller. -/
theorem operation_boundary_converts_exceptions :
    (∀ (body : Except PyExc SearchResult) e, body = Except.error e →
      search_readers_boundary body =
        { ok := false, results := [], count := 0, error := some (excText e) }) ∧
    (∀ bc rid (body : Except PyExc IssueItemResult) e, body = Except.error e →
      (issue_item_boundary bc rid body).ok = false ∧
      (issue_item_boundary bc rid body).message =
        (match e with
         | .timeout s => "Timeout: " ++ s
         | .exc s => "Error: " ++ s)) ∧
    (∀ bc (body : Except PyExc ReturnItemResult) e, body = Except.error e →
      (return_item_boundary bc body).ok = false ∧
      (return_item_boundary bc body).message =
        (match e with
         | .timeout s => "Timeout: " ++ s
         | .exc s => "Error: " ++ s)) := by
  refine ⟨?_, ?_, ?_⟩
  · intro body e h
    subst h
    rfl
  · intro bc rid body e h
    subst h
    cases e <;> exact ⟨rfl, rfl⟩
  · intro bc body e h
    subst h
    cases e <;> exact ⟨rfl, rfl⟩

/-- C8 witness: a concrete raised exception in each operation. -/
theorem operation_boundary_converts_exceptions_witness :
    search_readers_boundary (Except.error (.exc "boom")) =
      { ok := false, results := [], count := 0, error := some "boom" } ∧
    (issue_item_boundary "b1" 7 (Except.error (.timeout "slow"))).ok = false ∧
    (return_item_boundary "b2" (Except.error (.exc "lost"))).ok = false :=
  ⟨operation_boundary_converts_exceptions.1 _ (.exc "boom") rfl,
   (operation_boundary_converts_exceptions.2.1 "b1" 7 _ (.timeout "slow") rfl).1,
   (operation_boundary_converts_exceptions.2.2 "b2" _ (.exc "lost") rfl).1⟩

/-- C5 (code_bug evidence): with no intercepted response and no DOM error
or success indicator, `issue_item` classifies the outcome as `ok: False`
("Issue action completed"), because the assume-success check at
rpa_elibra.py:1365-1367 is nested under `if ok:` (rpa_elibra.py:1349)
where `ok` is always false — contradicting both the claim and the code's
own comment "If still no clear indication, assume success".  `return_item`
does default the same all-signals-absent situation to `ok: True`. -/
theorem issue_no_signal_defaults_to_failure :
    classify_issue none { errorText := none, successText := none } =
      (false, "Issue action completed") ∧
    classify_return none { errorText := none, successText := none } =
      (true, "Return action completed") := by
  exact ⟨rfl, by decide⟩

/-- C3 counterexample: `issue_item` invoked without a reader match query
does NOT fail when a reader already appears selected — the
backward-compatibility branch (rpa_elibra.py:866-873) trusts the
previously selected reader and the operation proceeds to barcode entry,
refuting "fails immediately ... never proceeds on the strength of a
previously selected reader". -/
theorem issue_without_query_proceeds_when_reader_selected :
    issueReaderPhase none
      { alreadySelected := true, optsAt := fun _ => [],
        searchRaises := false, verifyFinal := true } =
      .proceed none ∧
    IssuePhaseResult.proceed none ≠ .missingQueryError := by
  exact ⟨rfl, by decide⟩

/-- C3 amended: an issue operation invoked without a truthy reader match
query, when additionally no reader is verified as already selected in the
UI, returns the missing-query failure (rpa_elibra.py:885-897) before any
reader search, barcode entry or submission; with a reader already
verified as selected it instead proceeds on that selection. -/
theorem issue_missing_query_fails_when_unselected (rq : Option String)
    (env : IssueReaderEnv) (hq : queryTruthy rq = false)
    (hsel : env.alreadySelected = false) :
    issueReaderPhase rq env = .missingQueryError := by
  unfold issueReaderPhase
  rw [hq, hsel]
  simp

/-- C3 amended witness: no query, no reader selected. -/
theorem issue_missing_query_fails_when_unselected_witness :
    issueReaderPhase none
      { alreadySelected := false, optsAt := fun _ => [],
        searchRaises := false, verifyFinal := true } =
      .missingQueryError :=
  issue_missing_query_fails_when_unselected none
    { alreadySelected := false, optsAt := fun _ => [],
      searchRaises := false, verifyFinal := true } rfl rfl

/-- Any option returned by the retry loop satisfies the match predicate
and was found within the fuel window. -/
theorem selectLoop_matches (nq : String) (optsAt : Nat → List UIOption) :
    ∀ (fuel t s : Nat) (o : UIOption),
      selectLoop nq optsAt t fuel = some (s, o) →
      optionMatches nq o = true ∧ t ≤ s ∧ s < t + fuel := by
  intro fuel
  induction fuel with
  | zero =>
    intro t s o h
    simp [selectLoop] at h
  | succ n ih =>
    intro t s o h
    unfold selectLoop at h
    cases hf : findMatchingOption nq (optsAt t) with
    | some o2 =>
      rw [hf] at h
      simp only [Option.some.injEq, Prod.mk.injEq] at h
      obtain ⟨hts, ho⟩ := h
      subst hts
      subst ho
      refine ⟨List.find?_some hf, le_refl t, by omega⟩
    | none =>
      rw [hf] at h
      obtain ⟨h1, h2, h3⟩ := ih (t + 1) s o h
      exact ⟨h1, by omega, by omega⟩

/-- C2 counterexample: in `return_item`, when the dropdown never becomes
ready (rpa_elibra.py:1515-1527), the `if dropdown_ready:` guard
(rpa_elibra.py:1530) has no else — the reader-selection attempt with a
non-empty query is silently skipped and the operation proceeds to barcode
entry without returning the "reader not found" failure the claim
requires. -/
theorem return_dropdown_never_ready_skips_failure :
    returnReaderPhase (some "21000004099")
      { dropdownReady := false, optsAt := fun _ => [],
        clickRaises := false, searchRaises := false } =
      .proceed none ∧
    ReturnPhaseResult.proceed (none : Option UIOption) ≠
      .readerNotFoundError := by
  exact ⟨rfl, by decide⟩

/-- C2 amended: in both issue and return, the resolver never clicks a
dropdown option whose title-plus-text does not contain the trimmed query
as a case-insensitive substring, and it polls in at most 10 retries
(~0.5s apart, ~5s total).  When no option matches within that window,
`issue_item` always returns the reader-not-found failure; `return_item`
returns it only when the dropdown became ready (showed at least one
option) during the readiness wait — if the dropdown never appears,
return skips reader selection and proceeds without failing. -/
theorem select_by_match_contains_query :
    (∀ (q : String) (optsAt : Nat → List UIOption) (s : Nat) (o : UIOption),
      selectByMatch q optsAt = some (s, o) →
      pyInStr (normalizeQuery q) (optionCombined o) = true ∧ s < 10) ∧
    (∀ (rq : Option String) (env : IssueReaderEnv) (o : UIOption),
      issueReaderPhase rq env = .proceed (some o) →
      pyInStr (normalizeQuery (queryString rq)) (optionCombined o) = true) ∧
    (∀ (rq : Option String) (env : ReturnReaderEnv) (o : UIOption),
      returnReaderPhase rq env = .proceed (some o) →
      pyInStr (normalizeQuery (queryString rq)) (optionCombined o) = true) ∧
    (∀ (rq : Option String) (env : IssueReaderEnv),
      queryTruthy rq = true → env.searchRaises = false →
      selectByMatch (queryString rq) env.optsAt = none →
      issueReaderPhase rq env = .readerNotFoundError) ∧
    (∀ (rq : Option String) (env : ReturnReaderEnv),
      queryTruthy rq = true → env.searchRaises = false →
      env.dropdownReady = true →
      selectByMatch (queryString rq) env.optsAt = none →
      returnReaderPhase rq env = .readerNotFoundError) := by
  have hsel : ∀ (q : String) (optsAt : Nat → List UIOption) (s : Nat)
      (o : UIOption), selectByMatch q optsAt = some (s, o) →
      pyInStr (normalizeQuery q) (optionCombined o) = true ∧ s < 10 := by
    intro q optsAt s o h
    obtain ⟨h1, _, h3⟩ := selectLoop_matches (normalizeQuery q) optsAt 10 0 s o h
    unfold optionMatches at h1
    exact ⟨(Bool.and_eq_true _ _ |>.mp h1).2, by omega⟩
  refine ⟨hsel, ?_, ?_, ?_, ?_⟩
  · intro rq env o h
    unfold issueReaderPhase at h
    by_cases hq : queryTruthy rq
    · rw [if_pos hq] at h
      by_cases hsr : env.searchRaises
      · rw [if_pos hsr] at h
        by_cases hv : env.verifyFinal <;> simp [hv] at h
      · rw [if_neg hsr] at h
        cases hsb : selectByMatch (queryString rq) env.optsAt with
        | none => rw [hsb] at h; simp at h
        | some p =>
          obtain ⟨s, o2⟩ := p
          rw [hsb] at h
          by_cases hv : env.verifyFinal <;> simp [hv] at h
          subst h
          exact (hsel _ _ _ _ hsb).1
    · rw [if_neg hq] at h
      by_cases hs2 : env.alreadySelected <;>
        by_cases hv : env.verifyFinal <;> simp [hs2, hv] at h
  · intro rq env o h
    unfold returnReaderPhase at h
    by_cases hq : queryTruthy rq
    · rw [if_pos hq] at h
      by_cases hsr : env.searchRaises
      · rw [if_pos hsr] at h; simp at h
      · rw [if_neg hsr] at h
        by_cases hdr : env.dropdownReady
        · rw [if_pos hdr] at h
          cases hsb : selectByMatch (queryString rq) env.optsAt with
          | none => rw [hsb] at h; simp at h
          | some p =>
            obtain ⟨s, o2⟩ := p
            rw [hsb] at h
            by_cases hc : env.clickRaises <;> simp [hc] at h
            subst h
            exact (hsel _ _ _ _ hsb).1
        · rw [if_neg hdr] at h; simp at h
    · rw [if_neg hq] at h; simp at h
  · intro rq env hq hsr hnone
    unfold issueReaderPhase
    rw [if_pos hq, if_neg (by rw [hsr]; exact Bool.false_ne_true), hnone]
  · intro rq env hq hsr hdr hnone
    unfold returnReaderPhase
    rw [if_pos hq, if_neg (by rw [hsr]; exact Bool.false_ne_true),
      if_pos hdr, hnone]

/-- C2 amended witness: a matching option found at the first attempt, and
the not-found failures of both operations on an empty dropdown. -/
theorem select_by_match_contains_query_witness :
    (pyInStr (normalizeQuery "ab")
      (optionCombined { title := "AB", text := "x" }) = true ∧ 0 < 10) ∧
    issueReaderPhase (some "zz")
      { alreadySelected := false, optsAt := fun _ => [],
        searchRaises := false, verifyFinal := true } =
      .readerNotFoundError ∧
    returnReaderPhase (some "zz")
      { dropdownReady := true, optsAt := fun _ => [],
        clickRaises := false, searchRaises := false } =
      .readerNotFoundError :=
  ⟨select_by_match_contains_query.1 "ab" optsMatchW 0
      { title := "AB", text := "x" } rfl,
   select_by_match_contains_query.2.2.2.1 (some "zz")
     { alreadySelected := false, optsAt := fun _ => [],
       searchRaises := false, verifyFinal := true } rfl rfl rfl,
   select_by_match_contains_query.2.2.2.2 (some "zz")
     { dropdownReady := true, optsAt := fun _ => [],
       clickRaises := false, searchRaises := false } rfl rfl rfl rfl⟩

/-- C4 counterexample: in `return_item`, an intercepted response with the
explicit non-zero status 5 is first classified as failure, but the UI
fallback (rpa_elibra.py:1800-1844) then runs because `not ok`, and a
visible DOM success indicator flips the result to `ok: True` — the DOM
overrides the intercepted status, refuting "DOM success/failure
indicators never overriding the intercepted response". -/
theorem return_dom_success_overrides_failed_status :
    dictGet [("status", PyVal.vint 5)] "status" = some (.vint 5) ∧
    (classify_return (some (.jdict [("status", .vint 5)]))
      { errorText := none, successText := some "Operation success" }).1 =
      true := by
  exact ⟨rfl, rfl⟩

/-- C4 amended: for issue, the status of a truthy intercepted response
dict alone decides the outcome (`status == 0` gives success, anything
else failure) and DOM signals are never consulted.  For return, a
response whose status is 0 / "0" / `success: True` yields success without
DOM consultation; any other truthy intercepted response is classified as
failure by the response phase but then passes through the DOM fallback,
which preserves the failure only when no DOM indicator is visible and the
failure message does not contain "completed". -/
theorem classify_status_priority_amended :
    (∀ (d : PyDict) (dom : DomSignals), d ≠ [] →
      (classify_issue (some (.jdict d)) dom).1 =
        pyEqZero (dictGet d "status")) ∧
    (∀ (d : PyDict) (dom : DomSignals), d ≠ [] →
      (pyEqZero (dictGet d "status") || isStrZero (dictGet d "status") ||
        isPyTrue (dictGet d "success")) = true →
      (classify_return (some (.jdict d)) dom).1 = true) ∧
    (∀ d : PyDict, d ≠ [] →
      (pyEqZero (dictGet d "status") || isStrZero (dictGet d "status") ||
        isPyTrue (dictGet d "success")) = false →
      (dictGet d "status").isSome = true →
      pyInStr "Return action completed"
        (returnRespPhase (some (.jdict d))).2 = false →
      pyInStr "completed"
        (pyLower (returnRespPhase (some (.jdict d))).2) = false →
      (classify_return (some (.jdict d))
        { errorText := none, successText := none }).1 = false) := by
  refine ⟨?_, ?_, ?_⟩
  · intro d dom hne
    have hie : d.isEmpty = false := by
      cases d with
      | nil => exact absurd rfl hne
      | cons a l => rfl
    by_cases hz : pyEqZero (dictGet d "status") <;>
      simp [classify_issue, respTruthy, hie, hz]
  · intro d dom hne hok
    have hie : d.isEmpty = false := by
      cases d with
      | nil => exact absurd rfl hne
      | cons a l => rfl
    simp [classify_return, returnRespPhase, hie, hok]
  · intro d hne hnok hsome hA hB
    have hie : d.isEmpty = false := by
      cases d with
      | nil => exact absurd rfl hne
      | cons a l => rfl
    have hz : pyEqZero (dictGet d "status") = false := by
      cases hzz : pyEqZero (dictGet d "status")
      · rfl
      · rw [hzz] at hnok; simp at hnok
    have hsz : isStrZero (dictGet d "status") = false := by
      cases hzz : isStrZero (dictGet d "status")
      · rfl
      · rw [hzz] at hnok; simp at hnok
    have hpt : isPyTrue (dictGet d "success") = false := by
      cases hzz : isPyTrue (dictGet d "success")
      · rfl
      · rw [hzz] at hnok; simp at hnok
    have hphase1 : (returnRespPhase (some (.jdict d))).1 = false := by
      by_cases hef : (pyInStr "error" (pyLower (pyDictRepr d)) ||
          pyInStr "fail" (pyLower (pyDictRepr d))) = true
      · simp [returnRespPhase, hie, hnok, hef]
      · simp only [Bool.not_eq_true] at hef
        simp [returnRespPhase, hie, hnok, hef, hsome, hz, hsz, hpt]
    simp only [classify_return]
    simp [returnDomFallback, hphase1, hA, hB]

/-- C4 amended witness: a status-0 issue response, a status-0 return
response, and a non-zero-status return response with a quiet DOM. -/
theorem classify_status_priority_amended_witness :
    (classify_issue (some (.jdict [("status", .vint 0)]))
      { errorText := some "error", successText := none }).1 =
      pyEqZero (dictGet [("status", PyVal.vint 0)] "status") ∧
    (classify_return (some (.jdict [("status", .vint 0)]))
      { errorText := some "error", successText := none }).1 = true ∧
    (classify_return (some (.jdict [("status", .vint 7)]))
      { errorText := none, successText := none }).1 = false :=
  ⟨classify_status_priority_amended.1 [("status", .vint 0)]
     { errorText := some "error", successText := none } (by simp),
   classify_status_priority_amended.2.1 [("status", .vint 0)]
     { errorText := some "error", successText := none } (by simp) rfl,
   classify_status_priority_amended.2.2 [("status", .vint 7)]
     (by simp) rfl rfl rfl rfl⟩

/-- Method 3 and the Escape fallback never click a button that is not
cancel-texted. -/
theorem resolveCancelM3_safe (m : ConfirmModal) :
    dismissNotConfirm (resolveCancelM3 m) = true := by
  unfold resolveCancelM3
  cases m.buttons with
  | nil => rfl
  | cons b0 rest =>
    cases rest with
    | nil => rfl
    | cons b1 r2 =>
      by_cases hc : hasCancelText b0.text = true
      · simp [hc, dismissNotConfirm]
      · simp [hc, dismissNotConfirm]

/-- Method 2 never clicks a button that is not cancel-texted. -/
theorem resolveCancelM2_safe (m : ConfirmModal) :
    dismissNotConfirm (resolveCancelM2 m) = true := by
  unfold resolveCancelM2
  cases hf : m.buttons.find? (fun b => b.isDefaultBtn) with
  | none => exact resolveCancelM3_safe m
  | some b =>
    by_cases hc : hasCancelText b.text = true
    · simp [hc, dismissNotConfirm]
    · simp only [hc, if_false, Bool.false_eq_true]
      exact resolveCancelM3_safe m

/-- The whole cancel-resolution chain of the security interlock either
presses Escape or clicks a button whose text contains "Отмена" or
"Cancel" — it never invokes the dialog's confirm action. -/
theorem resolveCancel_safe (m : ConfirmModal) :
    dismissNotConfirm (resolveCancel m) = true := by
  unfold resolveCancel
  cases hf : m.buttons.find? (fun b => pyInStr "Отмена" b.text) with
  | none => exact resolveCancelM2_safe m
  | some b =>
    have hb := List.find?_some hf
    simp only [] at hb
    simp [dismissNotConfirm, hasCancelText, hb]

/-- If the first matching security modal shows at iteration `d` before
the intercepted response arrives, the await loop returns the security
rejection produced from that modal. -/
theorem returnAwaitGo_security (env : ReturnAwaitEnv) (d : Nat)
    (m : ConfirmModal) (hm : env.modalAt d = some m)
    (hmatch : modalMatches m = true) :
    ∀ fuel t, t ≤ d → d < t + fuel →
      (∀ u, t ≤ u → u < d → matchingModalAt env u = false) →
      (∀ u, t ≤ u → u < d → respArrivedBy env u = false) →
      returnAwaitGo env t fuel = .security (resolveCancel m) := by
  intro fuel
  induction fuel with
  | zero =>
    intro t h1 h2 _ _
    omega
  | succ n ih =>
    intro t ht hlt hmods hresps
    by_cases htd : t = d
    · subst htd
      unfold returnAwaitGo
      rw [hm]
      simp [hmatch]
    · have htd2 : t < d := lt_of_le_of_ne ht htd
      have hmt := hmods t le_rfl htd2
      have hrt := hresps t le_rfl htd2
      have hstep : returnAwaitGo env t (n + 1) = returnAwaitGo env (t + 1) n := by
        rw [returnAwaitGo]
        cases hmo : env.modalAt t with
        | none => simp [hrt]
        | some m2 =>
          have hm2 : modalMatches m2 = false := by
            unfold matchingModalAt at hmt
            rw [hmo] at hmt
            exact hmt
          simp [hm2, hrt]
      rw [hstep]
      exact ih (t + 1) htd2 (by omega)
        (fun u hu1 hu2 => hmods u (by omega) hu2)
        (fun u hu1 hu2 => hresps u (by omega) hu2)

/-- C1: whenever the "given to another reader" confirmation dialog is
shown at a poll iteration of the await-outcome window that the loop
reaches (the first matching dialog appears at iteration `d < 10` and the
intercepted response has not arrived at any earlier iteration),
`return_item` returns the security rejection — `ok: False` with
`security_warning: True` (the spec's `securityRejection`) — regardless of
the intercepted response or any DOM signal, and the dialog is dismissed
by Escape or by a cancel-texted button: its confirm action is never
invoked. -/
theorem return_security_dialog_rejects (env : ReturnAwaitEnv)
    (resp : Option JsonResp) (dom : DomSignals) (d : Nat) (m : ConfirmModal)
    (hd : d < 10) (hm : env.modalAt d = some m)
    (hmatch : modalMatches m = true)
    (hfirst : ∀ u, u < d → matchingModalAt env u = false)
    (hresp : ∀ u, u < d → respArrivedBy env u = false) :
    return_decision env resp dom = securityResult ∧
    (return_decision env resp dom).ok = false ∧
    (return_decision env resp dom).security_warning = true ∧
    returnAwait env = .security (resolveCancel m) ∧
    dismissNotConfirm (resolveCancel m) = true := by
  have hawait : returnAwait env = .security (resolveCancel m) := by
    unfold returnAwait
    exact returnAwaitGo_security env d m hm hmatch 10 0 (Nat.zero_le d)
      (by omega) (fun u _ hu2 => hfirst u hu2) (fun u _ hu2 => hresp u hu2)
  have hdec : return_decision env resp dom = securityResult := by
    unfold return_decision
    rw [hawait]
  refine ⟨hdec, ?_, ?_, hawait, resolveCancel_safe m⟩
  · rw [hdec]
    rfl
  · rw [hdec]
    rfl

/-- C1 witness: the eLibra warning dialog shown at the first poll
iteration with no intercepted response. -/
theorem return_security_dialog_rejects_witness :
    return_decision securityEnvW none
      { errorText := none, successText := some "success" } = securityResult ∧
    dismissNotConfirm (resolveCancel securityModalW) = true :=
  have h := return_security_dialog_rejects securityEnvW none
    { errorText := none, successText := some "success" } 0 securityModalW
    (by omega) rfl rfl
    (fun u hu => absurd hu (Nat.not_lt_zero u))
    (fun u hu => absurd hu (Nat.not_lt_zero u))
  ⟨h.1, h.2.2.2.2⟩

/-- A pending `localStep` means the operation is before its acquire. -/
theorem nextOpStep_eq_local {sp : OpSpec} {pc : Nat}
    (h : nextOpStep sp pc = some .localStep) : pc < sp.pre := by
  unfold nextOpStep at h
  split_ifs at h <;> simp_all

/-- A pending `acquire` means the operation is exactly at its acquire. -/
theorem nextOpStep_eq_acquire {sp : OpSpec} {pc : Nat}
    (h : nextOpStep sp pc = some .acquire) : pc = sp.pre := by
  unfold nextOpStep at h
  split_ifs at h <;> simp_all

/-- A pending `uiDrive` means the operation is inside its locked
region. -/
theorem nextOpStep_eq_ui {sp : OpSpec} {pc : Nat}
    (h : nextOpStep sp pc = some .uiDrive) :
    sp.pre < pc ∧ pc < sp.pre + 1 + sp.ui := by
  unfold nextOpStep at h
  split_ifs at h <;> simp_all
  omega

/-- A pending `release` means the operation is at the end of its locked
region. -/
theorem nextOpStep_eq_release {sp : OpSpec} {pc : Nat}
    (h : nextOpStep sp pc = some .release) : pc = sp.pre + 1 + sp.ui := by
  unfold nextOpStep at h
  split_ifs at h <;> simp_all

/-- The invariant holds initially. -/
theorem lockInv_init (k : Nat) (specs : Fin k → OpSpec) :
    lockInv specs (initLockSys k) := by
  intro i
  constructor
  · intro hc
    have hc2 : (specs i).pre < 0 := hc.1
    exact absurd hc2 (Nat.not_lt_zero _)
  · intro hc
    exact absurd hc (by simp [initLockSys])

/-- The invariant is preserved by every scheduler step. -/
theorem lockInv_step {k : Nat} (specs : Fin k → OpSpec) (s : LockSys k)
    (i : Fin k) (h : lockInv specs s) :
    lockInv specs (stepSys specs s i) := by
  intro j
  unfold stepSys
  cases hn : nextOpStep (specs i) (s.pcs i) with
  | none => exact h j
  | some st =>
    cases st with
    | localStep =>
      have hpc := nextOpStep_eq_local hn
      simp only
      by_cases hji : j = i
      · subst hji
        rw [Function.update_same]
        unfold inCritical
        constructor
        · intro hc
          exfalso
          omega
        · intro hl
          have hc := (h j).mpr hl
          unfold inCritical at hc
          exfalso
          omega
      · rw [Function.update_noteq hji]
        exact h j
    | acquire =>
      have hpc := nextOpStep_eq_acquire hn
      cases hlo : s.lockOwner with
      | none =>
        simp only
        by_cases hji : j = i
        · subst hji
          rw [Function.update_same]
          unfold inCritical
          constructor
          · intro _
            rfl
          · intro _
            omega
        · rw [Function.update_noteq hji]
          constructor
          · intro hc
            have := (h j).mp hc
            rw [hlo] at this
            exact absurd this (by simp)
          · intro hl
            have : i = j := by
              injection hl
            exact absurd this.symm hji
      | some w => exact h j
    | uiDrive =>
      have hpc := nextOpStep_eq_ui hn
      simp only
      by_cases hji : j = i
      · subst hji
        rw [Function.update_same]
        have hl : s.lockOwner = some j :=
          (h j).mp (by unfold inCritical; omega)
        rw [hl]
        unfold inCritical
        constructor
        · intro _
          rfl
        · intro _
          omega
      · rw [Function.update_noteq hji]
        exact h j
    | release =>
      have hpc := nextOpStep_eq_release hn
      have hl : s.lockOwner = some i :=
        (h i).mp (by unfold inCritical; omega)
      simp only
      by_cases hji : j = i
      · subst hji
        rw [Function.update_same]
        unfold inCritical
        constructor
        · intro hc
          exfalso
          omega
        · intro hc
          exact absurd hc (by simp)
      · rw [Function.update_noteq hji]
        constructor
        · intro hc
          have h2 := (h j).mp hc
          rw [hl] at h2
          have : i = j := by
            injection h2
          exact absurd this.symm hji
        · intro hc
          exact absurd hc (by simp)

/-- The invariant holds after any run of any schedule. -/
theorem lockInv_foldl {k : Nat} (specs : Fin k → OpSpec) :
    ∀ (sched : List (Fin k)) (s : LockSys k), lockInv specs s →
      lockInv specs (sched.foldl (stepSys specs) s)
  | [], _, h => h
  | i :: rest, s, h => lockInv_foldl specs rest _ (lockInv_step specs s i h)

/-- C9: under any interleaving of operations shaped like the source's
(lock-free preliminaries, `async with self._lock:` around all page
interactions), the `asyncio.Lock` serializes the locked regions — after
any schedule, at most one operation is inside its locked region, and an
operation about to drive the UI is the current lock owner, so no two
UI-driving sequences interleave on the shared page. -/
theorem lock_serializes_ui_operations {k : Nat} (specs : Fin k → OpSpec)
    (sched : List (Fin k)) :
    (∀ i j : Fin k,
      inCritical (specs i) ((runSched specs sched).pcs i) →
      inCritical (specs j) ((runSched specs sched).pcs j) → i = j) ∧
    (∀ i : Fin k,
      nextOpStep (specs i) ((runSched specs sched).pcs i) = some .uiDrive →
      (runSched specs sched).lockOwner = some i) := by
  have hinv : lockInv specs (runSched specs sched) :=
    lockInv_foldl specs sched (initLockSys k) (lockInv_init k specs)
  constructor
  · intro i j hi hj
    have h1 := (hinv i).mp hi
    have h2 := (hinv j).mp hj
    rw [h1] at h2
    injection h2
  · intro i hui
    have hb := nextOpStep_eq_ui hui
    exact (hinv i).mp (by unfold inCritical; omega)

/-- C9 witness: two operations; the schedule lets the first acquire and
perform one UI step, so it owns the lock while its next step is still a
UI step. -/
theorem lock_serializes_ui_operations_witness :
    (runSched specsW [0, 0]).lockOwner = some 0 :=
  (lock_serializes_ui_operations specsW [0, 0]).2 0 (by decide)

end LibraryQR
